import Mathlib

/-!
A shallow embedding of the cordl `cordl_internals` interop layer
(offset/bounds checks, null/liveness checks, field accessors, the static
field resolver, boxing/unboxing, and the reflective method invocation
bridge), together with theorems settling the specification claims.

Machine integers (`std::size_t`, pointers) are modelled as `Nat` with
explicit reduction modulo `2^64` wherever C++ unsigned wraparound can
occur.  Null pointers are the value `0`.  Foreign-runtime entry points
(`il2cpp_functions`, `il2cpp_utils::FindField`, ...) are abstract
parameters, and the calls a routine makes into the foreign runtime are
recorded in an explicit trace so that "no call occurs" is provable.
-/

namespace CordlInternals

/-- Width of `std::size_t` / pointers on the target (64-bit). -/
def USIZE : Nat := 2 ^ 64

/-- Sizeof a pointer (`sizeof(void*)`) on the target, in bytes. -/
def ptrSize : Nat := 8

/- ------------------------------------------------------------------
Offset/bounds check, revision from src/unnamed/part_001 lines 174-178
(also src/unnamed/part_003 lines 29-33):

  template<std::size_t instance_sz, std::size_t offset, std::size_t value_sz>
  requires(offset <= instance_sz && (offset + value_sz) <= instance_sz)
  struct offset_check { static constexpr bool value = true; };

`offset + value_sz` is computed in `std::size_t`, hence modulo 2^64.
The `requires` clause makes `offset_check_v` well-formed exactly when the
condition holds; we model the condition itself as a `Bool`.
------------------------------------------------------------------ -/

/-- The offset/bounds condition of the part_001 / part_003 revision of
offset_check: `offset <= instance_sz && (offset + value_sz) <= instance_sz`,
with the addition performed in `size_t` (mod 2^64). -/
def offset_check_v1 (instance_sz offset value_sz : Nat) : Bool :=
  decide (offset ≤ instance_sz) && decide ((offset + value_sz) % USIZE ≤ instance_sz)

/- ------------------------------------------------------------------
Offset/bounds check, revision from src/unnamed/part_002 lines 227-231:

  template<std::size_t instance_sz, std::size_t offset, std::size_t value_sz>
  requires(offset <= (instance_sz - value_sz))
  struct offset_check { static constexpr bool value = true; };

`instance_sz - value_sz` is unsigned subtraction in `std::size_t`: it
wraps modulo 2^64 when `value_sz > instance_sz`.  For
`instance_sz, value_sz < 2^64` the wrapped difference equals
`(2^64 + instance_sz - value_sz) % 2^64` (an exact `Nat` subtraction).
------------------------------------------------------------------ -/

/-- The offset/bounds condition of the part_002 revision of offset_check:
`offset <= (instance_sz - value_sz)` with wrapping `size_t` subtraction. -/
def offset_check_v2 (instance_sz offset value_sz : Nat) : Bool :=
  decide (offset ≤ (USIZE + instance_sz - value_sz) % USIZE)

/-- The OFFSET_CHECK macro: when COMPILE_TIME_OFFSET_CHECKS is defined the
static_assert evaluates the given check; otherwise the macro expands to
nothing (the check trivially passes). -/
def OFFSET_CHECK (enabled : Bool) (check : Nat → Nat → Nat → Bool)
    (instance_sz offset value_sz : Nat) : Bool :=
  if enabled then check instance_sz offset value_sz else true

/- ------------------------------------------------------------------
Null / liveness checking.

src/cordl_internals/field-utils.hpp lines 20-38:

  template<cordl_ref_type T> requires(std::is_convertible_v<T, UnityEngine::Object*>)
  inline constexpr void* read_cachedptr(T instance) {
    return *static_cast<void**>(getAtOffset<0x10>(instance));
  }
  template<...> requires(std::is_convertible_v<T, UnityEngine::Object*>)
  inline bool check_null(T instance) { return instance && read_cachedptr(instance); }
  template<...> requires(!std::is_convertible_v<T, UnityEngine::Object*>)
  inline bool check_null(T instance) { return instance; }

Pointers are `Nat` (0 = null); `mem a` is the pointer-sized word stored at
absolute byte address `a` in process memory.
------------------------------------------------------------------ -/

/-- Reads the m_CachedPtr shadow pointer of a Unity object: the word at
byte offset 0x10 into the instance (getAtOffset<0x10>). -/
def read_cachedptr (mem : Nat → Nat) (inst : Nat) : Nat :=
  mem (inst + 0x10)

/-- The check_null overload for handle types convertible to
UnityEngine.Object*: instance non-null and its cached shadow pointer
non-null. -/
def check_null_unity (mem : Nat → Nat) (inst : Nat) : Bool :=
  decide (inst ≠ 0) && decide (read_cachedptr mem inst ≠ 0)

/-- The check_null overload for reference types not convertible to
UnityEngine.Object*: instance non-null. -/
def check_null_ref (inst : Nat) : Bool :=
  decide (inst ≠ 0)

/-- The CORDL_FIELD_NULL_CHECK macro revision of src/unnamed/part_004
lines 92-96: when CORDL_RUNTIME_FIELD_NULL_CHECKS is defined it throws iff
the instance pointer itself is null (`if (!inst) throw ...`); this models
the condition under which the access is allowed to proceed.  Note it never
consults the cached shadow pointer, for any instance type. -/
def cordl_field_null_check_passes (inst : Nat) : Bool :=
  decide (inst ≠ 0)

/- ------------------------------------------------------------------
Reference-typed instance field setters, src/cordl_internals/field-utils.hpp.

Revision 2, lines 329-337 (setting a ref-type field on a ref-type
(pointer) instance):

  OFFSET_CHECK(...); FIELD_NULL_CHECK(instance);
  auto value = il2cpp_reference_type_value<T>(std::forward<T>(v));
  il2cpp_functions::Init();
  il2cpp_functions::gc_wbarrier_set_field(instance, getAtOffset<offset>(instance), value);

Revision 2, lines 367-378 (setting a ref-type field on a value-type
instance, a `std::array<std::byte, sz>`):

  OFFSET_CHECK(...);
  auto value = il2cpp_reference_type_value<T>(std::forward<T>(v));
  std::copy_n(std::bit_cast<std::array<std::byte, sizeof(void*)>>(value).begin(),
              sizeof(void*), std::next(instance.begin(), offset));

The foreign-runtime calls a setter makes are recorded as a trace.
------------------------------------------------------------------ -/

/-- Foreign-runtime calls made by a field setter. -/
inductive GCCall where
  /-- il2cpp_functions::Init() -/
  | initCall : GCCall
  /-- il2cpp_functions::gc_wbarrier_set_field(obj, slot, value): registers
  the write with the collector and performs the store into the slot. -/
  | wbarrierSetField (obj slot value : Nat) : GCCall
deriving DecidableEq, Repr

/-- Setting a reference-type field at `offset` on a reference-type
(heap pointer) instance: the store is carried out by the foreign runtime
write-barrier call itself (field-utils.hpp revision 2, lines 329-337).
Returns the trace of foreign-runtime calls. -/
def setInstanceField_refOnRef (inst offset v : Nat) : List GCCall :=
  [GCCall.initCall, GCCall.wbarrierSetField inst (inst + offset) v]

/-- Setting a reference-type field at `offset` on a value-type instance
(an inline byte array): a plain copy of the handle's `sizeof(void*)` raw
bytes into the array at `offset` (field-utils.hpp revision 2, lines
367-378).  Returns the updated byte array and the trace of foreign-runtime
calls made (there are none). -/
def setInstanceField_refOnVal (offset : Nat) (inst vbytes : List Nat) :
    List Nat × List GCCall :=
  (inst.take offset ++ vbytes ++ inst.drop (offset + vbytes.length), [])

/- ------------------------------------------------------------------
Static field resolution, src/cordl_internals/field-utils.hpp lines 51-62:

  template<internal::NTTPString name, auto klass_resolver>
  FieldInfo* FindField() {
    static auto* klass = klass_resolver();
    if (!klass)
      throw NullException(std::string("Class for static field with name: ") + name + " is null!");
    static auto* field = il2cpp_utils::FindField(klass, name);
    if (!field)
      throw FieldException(std::string("Could not set static field with name: ") + name);
    return field;
  }

Each template instantiation owns two block-scope statics.  C++ initializes
a block-scope static exactly once, on the first pass through its
declaration; a null result still completes the initialization, so later
calls reuse the cached null.  The statics are modelled as an explicit
`FFState`; counters record how often the resolver callback and the
foreign-runtime field lookup were invoked.
------------------------------------------------------------------ -/

/-- Cached state of one FindField template instantiation: the two
block-scope statics (each `none` until its initializer has run, then
`some p` with `p = 0` meaning the initializer produced nullptr), plus
invocation counters for the resolver callback and the foreign field
lookup. -/
structure FFState where
  klassCache : Option Nat
  fieldCache : Option Nat
  resolverCalls : Nat
  lookupCalls : Nat
deriving DecidableEq, Repr

/-- The fresh state of a FindField instantiation before any call. -/
def FFState.fresh : FFState := ⟨none, none, 0, 0⟩

/-- Errors thrown by FindField. -/
inductive FFError where
  /-- NullException("Class for static field with name: " + name + " is null!") -/
  | nullClass (name : String) : FFError
  /-- FieldException("Could not set static field with name: " + name) -/
  | fieldNotFound (name : String) : FFError
deriving DecidableEq, Repr

/-- One call to FindField<name, klass_resolver>.  `resolver n` is the
class handle produced by the n-th invocation of the klass_resolver
callback (0 = null class); `lookup k name` is the foreign runtime's
`il2cpp_utils::FindField(k, name)` (0 = field not found). -/
def FindField (resolver : Nat → Nat) (lookup : Nat → String → Nat)
    (name : String) (s : FFState) : Except FFError Nat × FFState :=
  let ks :=
    match s.klassCache with
    | some k => (k, s)
    | none =>
      let k := resolver s.resolverCalls
      (k, { s with klassCache := some k, resolverCalls := s.resolverCalls + 1 })
  let k := ks.1
  let s1 := ks.2
  if k = 0 then
    (Except.error (FFError.nullClass name), s1)
  else
    let fs :=
      match s1.fieldCache with
      | some f => (f, s1)
      | none =>
        let f := lookup k name
        (f, { s1 with fieldCache := some f, lookupCalls := s1.lookupCalls + 1 })
    let f := fs.1
    let s2 := fs.2
    if f = 0 then
      (Except.error (FFError.fieldNotFound name), s2)
    else
      (Except.ok f, s2)

/- ------------------------------------------------------------------
Boxing / unboxing bridge, src/cordl_internals/box-utils.hpp, revision 1.

Lines 20-28 (boxing a value-classified T):

  template<il2cpp_value_type T>
  Il2CppWrapperType Box(T t) {
    return Il2CppWrapperType(il2cpp_functions::value_box(classof(T), t.__instance.data()));
  }

Lines 40-46 (unboxing into a value-classified T):

  template<il2cpp_value_type T>
  T Unbox(Il2CppWrapperType t) {
    std::array<uint8_t, sizeof(T)> v;
    auto val = reinterpret_cast<T*>(v.data());
    std::memcpy(val->__instance.data(), il2cpp_functions::object_unbox(t), T::__CORDL_VALUE_TYPE_SIZE);
    return *val;
  }

A value-classified T is its inline `__instance` byte array; the foreign
runtime's value_box / object_unbox pair is an abstract parameter over an
opaque handle type.
------------------------------------------------------------------ -/

/-- A value-classified instance: the inline `__instance` byte buffer. -/
structure CordlValue where
  __instance : List Nat
deriving DecidableEq, Repr

/-- The slice of the foreign runtime used by the boxing bridge, abstract
over the opaque handle type `H`: `value_box klass bytes` allocates a boxed
copy, `object_unbox h` yields the boxed payload bytes. -/
structure BoxRT (H : Type) where
  value_box : Nat → List Nat → H
  object_unbox : H → List Nat

/-- Box for a value-classified T: asks the foreign runtime to box the
bytes of `t.__instance` against T's class handle. -/
def Box {H : Type} (rt : BoxRT H) (classofT : Nat) (t : CordlValue) : H :=
  rt.value_box classofT t.__instance

/-- Unbox into a value-classified T: memcpy of exactly
`T::__CORDL_VALUE_TYPE_SIZE` (= `valueSize`) bytes out of the boxed
payload into a fresh T's `__instance`. -/
def Unbox {H : Type} (rt : BoxRT H) (valueSize : Nat) (h : H) : CordlValue :=
  ⟨(rt.object_unbox h).take valueSize⟩

/- ------------------------------------------------------------------
Argument / receiver marshaling, src/cordl_internals/cordl_internals.hpp
revision 2.

Lines 115-127, the ExtractValue<Il2CppObject*> specialization:

  if (arg) {
    il2cpp_functions::Init();
    auto k = il2cpp_functions::object_get_class(arg);
    if (k && il2cpp_functions::class_is_valuetype(k)) {
      return il2cpp_functions::object_unbox(static_cast<Il2CppObject*>(arg));
    }
  }
  return arg;

Lines 198-211, the ExtractTypeValue<Il2CppWrapperType> specialization:

  if (arg) {
    il2cpp_functions::Init();
    auto k = il2cpp_functions::object_get_class(static_cast<Il2CppObject*>(arg));
    if (k && il2cpp_functions::class_is_valuetype(k)) {
      return il2cpp_functions::object_unbox(static_cast<Il2CppObject*>(arg));
    }
    return arg.convert();
  } else {
    return nullptr;
  }
------------------------------------------------------------------ -/

/-- The slice of the foreign runtime used when marshaling an object
pointer: class of an object (0 = null class), value-type classification of
a class, and unboxing (pointer to the boxed payload). -/
structure ClassRT where
  object_get_class : Nat → Nat
  class_is_valuetype : Nat → Bool
  object_unbox : Nat → Nat

/-- The ExtractValue specialization for a raw Il2CppObject* argument or
receiver. -/
def ExtractValue_obj (rt : ClassRT) (arg : Nat) : Nat :=
  if arg ≠ 0 then
    let k := rt.object_get_class arg
    if k ≠ 0 ∧ rt.class_is_valuetype k then rt.object_unbox arg
    else arg
  else arg

/-- The ExtractTypeValue specialization for an Il2CppWrapperType argument
(whose `convert()` is its raw object pointer). -/
def ExtractTypeValue_wrapper (rt : ClassRT) (arg : Nat) : Nat :=
  if arg ≠ 0 then
    let k := rt.object_get_class arg
    if k ≠ 0 ∧ rt.class_is_valuetype k then rt.object_unbox arg
    else arg
  else 0

/- ------------------------------------------------------------------
Method invocation bridge, src/cordl_internals/cordl_internals.hpp
revision 2, lines 271-343 (the same null/liveness gate appears in
src/cordl_internals/method-utils.hpp lines 19-57):

  TOut RunMethodRethrow(T&& instance, MethodInfo const* method, TArgs&&... params) {
    CRASH_UNLESS(method);
    auto inst = ExtractValue(instance);
  #ifndef NO_RUNTIME_INSTANCE_METHOD_NULL_CHECKS
    if constexpr (il2cpp_reference_type<T>) {
      if ((method->flags & METHOD_ATTRIBUTE_STATIC) == 0) {
        if (!inst) throw NullException("Instance was null for method call of " + klass + "::" + name);
  #ifndef ALLOW_INVALID_UNITY_METHOD_CALLS
        if constexpr (std::is_convertible_v<T, UnityEngine::Object*>)
          if (!read_cachedptr(inst)) throw NullException(same message);
  #endif
      }
    }
  #endif
    ...
    Il2CppException* exp = nullptr;
    auto* ret = il2cpp_functions::runtime_invoke(method, inst, invokeParams.data(), &exp);
    if (exp) throw il2cpp_utils::RunMethodException(exp, method);
    ... return value handling ...
  }

For a reference-classified receiver, ExtractValue yields the receiver's
raw handle; `inst` is that raw pointer.  The compile-time facts about T
(reference-classified, convertible to UnityEngine.Object*) and the two
preprocessor toggles are explicit booleans.  The foreign reflective call
`runtime_invoke` is an abstract parameter returning (return object,
exception) with exception 0 meaning none, and each call to it is recorded
in a trace.
------------------------------------------------------------------ -/

/-- The identity of an invoked method: the staticness bit of its flags,
its declaring class name and its own name. -/
structure MethodInfo where
  flagsStatic : Bool
  klassName : String
  methodName : String
deriving DecidableEq, Repr

/-- The NullException message RunMethodRethrow builds via stringstream. -/
def nullInstanceMsg (m : MethodInfo) : String :=
  "Instance was null for method call of " ++ m.klassName ++ "::" ++ m.methodName

/-- Errors RunMethodRethrow throws to its caller. -/
inductive RMError where
  /-- NullException(msg) for a null or logically-dead receiver. -/
  | nullAccess (msg : String) : RMError
  /-- RunMethodException(exp, method): the foreign exception payload
  wrapped with the identity of the invoked method. -/
  | invocationException (exp : Nat) (method : MethodInfo) : RMError
deriving DecidableEq, Repr

/-- Foreign-runtime calls made by RunMethodRethrow. -/
inductive RMCall where
  /-- il2cpp_functions::runtime_invoke(method, inst, params, &exp) -/
  | runtimeInvoke (methodName : String) (inst : Nat) : RMCall
deriving DecidableEq, Repr

/-- Outcome of one RunMethodRethrow call: the value returned or error
thrown, and the trace of foreign reflective-invoke calls that crossed into
the foreign runtime. -/
structure RMOutcome where
  result : Except RMError Nat
  calls : List RMCall
deriving Repr

/-- The method invocation bridge RunMethodRethrow.  `nullChecks` is true
unless NO_RUNTIME_INSTANCE_METHOD_NULL_CHECKS is defined;
`allowInvalidUnity` is true iff ALLOW_INVALID_UNITY_METHOD_CALLS is
defined; `isRefType` / `isUnityConv` are the compile-time classification
of the receiver type T; `mem` is process memory (for the m_CachedPtr
read); `invoke inst` is the foreign `runtime_invoke` returning (return
object, exception or 0); `inst` is the extracted raw receiver value. -/
def RunMethodRethrow (nullChecks allowInvalidUnity isRefType isUnityConv : Bool)
    (mem : Nat → Nat) (invoke : Nat → Nat × Nat)
    (m : MethodInfo) (inst : Nat) : RMOutcome :=
  if nullChecks ∧ isRefType ∧ ¬ m.flagsStatic ∧ inst = 0 then
    ⟨Except.error (RMError.nullAccess (nullInstanceMsg m)), []⟩
  else if nullChecks ∧ isRefType ∧ ¬ m.flagsStatic ∧ ¬ allowInvalidUnity ∧
      isUnityConv ∧ read_cachedptr mem inst = 0 then
    ⟨Except.error (RMError.nullAccess (nullInstanceMsg m)), []⟩
  else
    let r := invoke inst
    if r.2 ≠ 0 then
      ⟨Except.error (RMError.invocationException r.2 m), [RMCall.runtimeInvoke m.methodName inst]⟩
    else
      ⟨Except.ok r.1, [RMCall.runtimeInvoke m.methodName inst]⟩

/- ==================================================================
Theorems settling the claims
================================================================== -/

/-- Useful numeral form of USIZE for arithmetic automation. -/
theorem USIZE_eq : USIZE = 18446744073709551616 := by norm_num [USIZE]

/-- C1 counterexample: the claim states the offset/bounds check is true
iff offset ≤ instance_size and offset + value_size ≤ instance_size; the
part_002 revision of offset_check, at instance size 4, offset 0, value
size 8, evaluates to true although 0 + 8 ≤ 4 fails (the size_t
subtraction 4 - 8 wraps). -/
theorem offset_check_v2_accepts_oversized_value :
    offset_check_v2 4 0 8 = true ∧ ¬ (0 ≤ 4 ∧ 0 + 8 ≤ 4) := by
  constructor
  · rfl
  · intro h
    omega

/-- C1 (amended): the part_001/part_003 revision of the offset/bounds
check is true iff offset ≤ instance_size and offset + value_size ≤
instance_size, provided the size_t addition offset + value_size does not
wrap; the part_002 revision computes offset ≤ instance_size − value_size
with wrapping size_t subtraction, which is equivalent to
offset + value_size ≤ instance_size whenever value_size ≤ instance_size
but, when value_size > instance_size, wraps and instead compares offset
against 2^64 + instance_size − value_size (so it accepts out-of-bounds
offsets such as offset 0, value size 8, instance size 4); when the
OFFSET_CHECK macro is disabled it is a no-op that always passes, and when
enabled it evaluates the configured check. -/
theorem offset_check_spec :
    (∀ s o v : Nat, o + v < USIZE →
      (offset_check_v1 s o v = true ↔ (o ≤ s ∧ o + v ≤ s)))
    ∧ (∀ s o v : Nat, s < USIZE → v ≤ s →
      (offset_check_v2 s o v = true ↔ o + v ≤ s))
    ∧ (∀ s o v : Nat, s < v → v < USIZE →
      (offset_check_v2 s o v = true ↔ o ≤ USIZE + s - v))
    ∧ (∀ (check : Nat → Nat → Nat → Bool) (s o v : Nat),
      OFFSET_CHECK false check s o v = true)
    ∧ (∀ (check : Nat → Nat → Nat → Bool) (s o v : Nat),
      OFFSET_CHECK true check s o v = check s o v) := by
  refine ⟨?_, ?_, ?_, ?_, ?_⟩
  · intro s o v hov
    simp only [offset_check_v1, Bool.and_eq_true, decide_eq_true_eq,
      Nat.mod_eq_of_lt hov]
  · intro s o v hs hv
    have h1 : (USIZE + s - v) % USIZE = s - v := by
      rw [Nat.add_sub_assoc hv, Nat.add_mod_left,
        Nat.mod_eq_of_lt (by omega)]
    simp only [offset_check_v2, h1, decide_eq_true_eq]
    omega
  · intro s o v hsv hv
    have h1 : (USIZE + s - v) % USIZE = USIZE + s - v :=
      Nat.mod_eq_of_lt (by omega)
    simp only [offset_check_v2, h1, decide_eq_true_eq]
  · intro check s o v
    rfl
  · intro check s o v
    rfl

/-- C2: the check_null liveness check of field-utils.hpp behaves exactly
as claimed — for a generic reference handle it is true iff the handle is
non-null, and for a Unity-convertible handle it is true iff the handle is
non-null and the cached shadow pointer at offset 0x10 is non-null — but
the CORDL_FIELD_NULL_CHECK revision of src/unnamed/part_004, whose own
comment says that for a unity object the m_CachedPtr is also checked,
consults only the handle: at the failing input of a non-null Unity handle
(address 1) whose shadow word at offset 0x10 is 0, it lets the access
proceed although check_null classifies the instance as dead. -/
theorem cordl_field_null_check_ignores_cachedptr :
    (∀ (mem : Nat → Nat) (inst : Nat),
      check_null_unity mem inst = true ↔ (inst ≠ 0 ∧ read_cachedptr mem inst ≠ 0))
    ∧ (∀ inst : Nat, check_null_ref inst = true ↔ inst ≠ 0)
    ∧ cordl_field_null_check_passes 1 = true
    ∧ check_null_unity (fun _ => 0) 1 = false := by
  refine ⟨?_, ?_, rfl, rfl⟩
  · intro mem inst
    simp [check_null_unity]
  · intro inst
    simp [check_null_ref]

/-- Helper: the middle component of a three-part append is recovered by
dropping the prefix length and taking the middle length. -/
theorem middle_slice (a b c : List Nat) :
    ((a ++ b ++ c).drop a.length).take b.length = b := by
  rw [List.append_assoc, List.drop_left, List.take_left]

/-- C3 counterexample: the claim states the store of a reference-typed
field never happens without the write-barrier registration; setting a
reference-typed field at offset 0 on a value-type instance of 16 zero
bytes stores the handle's 8 raw bytes (the buffer changes) while making
no foreign-runtime call at all (field-utils.hpp revision 2, lines
367-378). -/
theorem setRefField_on_value_instance_skips_barrier :
    (setInstanceField_refOnVal 0
      [0, 0, 0, 0, 0, 0, 0, 0, 0, 0, 0, 0, 0, 0, 0, 0]
      [1, 2, 3, 4, 5, 6, 7, 8]).1
      = [1, 2, 3, 4, 5, 6, 7, 8, 0, 0, 0, 0, 0, 0, 0, 0]
    ∧ (setInstanceField_refOnVal 0
      [0, 0, 0, 0, 0, 0, 0, 0, 0, 0, 0, 0, 0, 0, 0, 0]
      [1, 2, 3, 4, 5, 6, 7, 8]).2 = [] := by
  constructor
  · rfl
  · rfl

/-- C3 (amended): setting a reference-typed field on a reference-type
(heap) instance performs the store through the foreign runtime's
write-barrier registration call itself — the trace is exactly Init
followed by gc_wbarrier_set_field on the slot at the field's offset with
the handle's raw value, so that store cannot happen without the barrier —
whereas setting a reference-typed field on a value-type (inline byte
array) instance copies the handle's raw bytes into the slot with no
barrier call. -/
theorem setRefField_barrier :
    (∀ inst offset v : Nat,
      setInstanceField_refOnRef inst offset v
        = [GCCall.initCall, GCCall.wbarrierSetField inst (inst + offset) v])
    ∧ (∀ (offset : Nat) (inst vbytes : List Nat),
      offset + vbytes.length ≤ inst.length →
      ((setInstanceField_refOnVal offset inst vbytes).2 = []
        ∧ ((setInstanceField_refOnVal offset inst vbytes).1.drop offset).take
            vbytes.length = vbytes
        ∧ (setInstanceField_refOnVal offset inst vbytes).1.length
            = inst.length)) := by
  constructor
  · intro inst offset v
    rfl
  · intro offset inst vbytes hle
    refine ⟨rfl, ?_, ?_⟩
    · have hlen : (inst.take offset).length = offset := by
        rw [List.length_take]
        omega
      have h := middle_slice (inst.take offset) vbytes
        (inst.drop (offset + vbytes.length))
      rw [hlen] at h
      simpa [setInstanceField_refOnVal] using h
    · simp only [setInstanceField_refOnVal, List.length_append,
        List.length_take, List.length_drop]
      omega

/-- C6: static-field resolution checks the class before the field — if
the cached or freshly-resolved class handle is null, FindField throws the
null-class error without consulting the field lookup at all (the lookup
counter and field cache are untouched), and if the class is valid but the
field name does not resolve on it, FindField throws the field-not-found
error; hence a null class never yields a field-not-found error. -/
theorem findField_error_order :
    (∀ (resolver : Nat → Nat) (lookup : Nat → String → Nat) (name : String)
      (s : FFState),
      (s.klassCache = some 0
        ∨ (s.klassCache = none ∧ resolver s.resolverCalls = 0)) →
      ((FindField resolver lookup name s).1
          = Except.error (FFError.nullClass name)
        ∧ (FindField resolver lookup name s).2.lookupCalls = s.lookupCalls
        ∧ (FindField resolver lookup name s).2.fieldCache = s.fieldCache))
    ∧ (∀ (resolver : Nat → Nat) (lookup : Nat → String → Nat) (name : String)
      (s : FFState) (k : Nat),
      (s.klassCache = some k
        ∨ (s.klassCache = none ∧ resolver s.resolverCalls = k)) →
      k ≠ 0 →
      (s.fieldCache = some 0 ∨ (s.fieldCache = none ∧ lookup k name = 0)) →
      (FindField resolver lookup name s).1
        = Except.error (FFError.fieldNotFound name)) := by
  constructor
  · intro resolver lookup name s hk
    rcases hk with hk | ⟨hk, hr⟩
    · simp [FindField, hk]
    · simp [FindField, hk, hr]
  · intro resolver lookup name s k hk hknz hf
    rcases hk with hk | ⟨hk, hr⟩ <;>
      rcases hf with hf | ⟨hf, hl⟩ <;>
      simp [FindField, hk, hf, hknz, *]

/-- Helper: a successful FindField call leaves both static caches filled
with the non-null class and field it returned. -/
theorem findField_ok_state (resolver : Nat → Nat) (lookup : Nat → String → Nat)
    (name : String) (s s' : FFState) (f : Nat)
    (h : FindField resolver lookup name s = (Except.ok f, s')) :
    (∃ k, s'.klassCache = some k ∧ k ≠ 0) ∧ s'.fieldCache = some f ∧ f ≠ 0 := by
  cases hk : s.klassCache with
  | none =>
    by_cases hr : resolver s.resolverCalls = 0
    · simp [FindField, hk, hr] at h
    · cases hf : s.fieldCache with
      | none =>
        by_cases hl : lookup (resolver s.resolverCalls) name = 0
        · simp [FindField, hk, hr, hf, hl] at h
        · simp [FindField, hk, hr, hf, hl] at h
          obtain ⟨h1, h2⟩ := h
          subst h2
          exact ⟨⟨resolver s.resolverCalls, rfl, hr⟩, by simp [h1], h1 ▸ hl⟩
      | some f0 =>
        by_cases hl : f0 = 0
        · simp [FindField, hk, hr, hf, hl] at h
        · simp [FindField, hk, hr, hf, hl] at h
          obtain ⟨h1, h2⟩ := h
          subst h2
          exact ⟨⟨resolver s.resolverCalls, rfl, hr⟩, by simp [hf, h1], h1 ▸ hl⟩
  | some k =>
    by_cases hr : k = 0
    · simp [FindField, hk, hr] at h
    · cases hf : s.fieldCache with
      | none =>
        by_cases hl : lookup k name = 0
        · simp [FindField, hk, hr, hf, hl] at h
        · simp [FindField, hk, hr, hf, hl] at h
          obtain ⟨h1, h2⟩ := h
          subst h2
          exact ⟨⟨k, by simp [hk], hr⟩, by simp [h1], h1 ▸ hl⟩
      | some f0 =>
        by_cases hl : f0 = 0
        · simp [FindField, hk, hr, hf, hl] at h
        · simp [FindField, hk, hr, hf, hl] at h
          obtain ⟨h1, h2⟩ := h
          subst h2
          exact ⟨⟨k, hk, hr⟩, by simp [hf, h1], h1 ▸ hl⟩

/-- C7: static-field resolution is memoized — once a FindField
instantiation has returned a field handle successfully, calling it again
returns the identical handle and leaves the cached state (including the
resolver and lookup invocation counters) completely unchanged, so the
lookup is never performed again. -/
theorem findField_memoized (resolver : Nat → Nat) (lookup : Nat → String → Nat)
    (name : String) (s s' : FFState) (f : Nat)
    (h : FindField resolver lookup name s = (Except.ok f, s')) :
    FindField resolver lookup name s' = (Except.ok f, s') := by
  obtain ⟨⟨k, hk, hknz⟩, hf, hfnz⟩ := findField_ok_state resolver lookup name s s' f h
  simp [FindField, hk, hknz, hf, hfnz]

/-- C7 witness: a concrete successful resolution (class handle 5, field
handle 9) is memoized: re-running FindField on the resulting state yields
the same handle and state. -/
theorem findField_memoized_witness :
    FindField (fun _ => 5) (fun _ _ => 9) "someField"
        { klassCache := some 5, fieldCache := some 9,
          resolverCalls := 1, lookupCalls := 1 }
      = (Except.ok 9,
        { klassCache := some 5, fieldCache := some 9,
          resolverCalls := 1, lookupCalls := 1 }) :=
  findField_memoized (fun _ => 5) (fun _ _ => 9) "someField"
    FFState.fresh _ 9 (by rfl)

/-- C9: when the class-resolver callback yields null on the first
resolution attempt, the null is cached in the instantiation's static slot:
the first call throws the null-class error having invoked the resolver
exactly once, and every later call returns the same error without
touching the state (so the resolver is never invoked again), even for a
resolver that would return a valid class on any later invocation. -/
theorem findField_null_class_permanent (resolver : Nat → Nat)
    (lookup : Nat → String → Nat) (name : String)
    (h0 : resolver 0 = 0) :
    (FindField resolver lookup name FFState.fresh).1
        = Except.error (FFError.nullClass name)
    ∧ (FindField resolver lookup name FFState.fresh).2.resolverCalls = 1
    ∧ FindField resolver lookup name (FindField resolver lookup name FFState.fresh).2
        = (Except.error (FFError.nullClass name),
          (FindField resolver lookup name FFState.fresh).2) := by
  refine ⟨?_, ?_, ?_⟩ <;> simp [FindField, FFState.fresh, h0]

/-- C9 witness: a resolver that fails only on its first invocation (and
would return class 7 afterwards) still fails permanently: both the first
and the second FindField call throw the null-class error and the resolver
is invoked exactly once. -/
theorem findField_null_class_permanent_witness :
    (FindField (fun n => if n = 0 then 0 else 7) (fun _ _ => 9) "f"
        FFState.fresh).1 = Except.error (FFError.nullClass "f")
    ∧ (FindField (fun n => if n = 0 then 0 else 7) (fun _ _ => 9) "f"
        FFState.fresh).2.resolverCalls = 1
    ∧ FindField (fun n => if n = 0 then 0 else 7) (fun _ _ => 9) "f"
        (FindField (fun n => if n = 0 then 0 else 7) (fun _ _ => 9) "f"
          FFState.fresh).2
      = (Except.error (FFError.nullClass "f"),
        (FindField (fun n => if n = 0 then 0 else 7) (fun _ _ => 9) "f"
          FFState.fresh).2) :=
  findField_null_class_permanent (fun n => if n = 0 then 0 else 7)
    (fun _ _ => 9) "f" (by rfl)

/-- C4: for an instance (non-static) method on a reference-classified
receiver that fails the null/liveness check — a null raw handle, or a
Unity-convertible receiver whose cached shadow pointer is null while
invalid unity calls are not allowed — RunMethodRethrow with null checks
enabled throws the null-access error naming the declaring class and
method name and makes no call into the foreign runtime's reflective
invoke entry point; with null checks disabled it attempts the reflective
call instead. -/
theorem runMethodRethrow_null_receiver :
    (∀ (allowInv isUnity : Bool) (mem : Nat → Nat) (invoke : Nat → Nat × Nat)
      (m : MethodInfo) (inst : Nat),
      m.flagsStatic = false →
      (inst = 0
        ∨ (isUnity = true ∧ allowInv = false ∧ read_cachedptr mem inst = 0)) →
      ((RunMethodRethrow true allowInv true isUnity mem invoke m inst).result
          = Except.error (RMError.nullAccess
            ("Instance was null for method call of "
              ++ m.klassName ++ "::" ++ m.methodName))
        ∧ (RunMethodRethrow true allowInv true isUnity mem invoke m inst).calls
          = []))
    ∧ (∀ (allowInv isUnity : Bool) (mem : Nat → Nat) (invoke : Nat → Nat × Nat)
      (m : MethodInfo) (inst : Nat),
      (RunMethodRethrow false allowInv true isUnity mem invoke m inst).calls
        = [RMCall.runtimeInvoke m.methodName inst]) := by
  constructor
  · intro allowInv isUnity mem invoke m inst hstat hfail
    by_cases hi : inst = 0
    · simp [RunMethodRethrow, hstat, hi, nullInstanceMsg]
    · rcases hfail with hfail | ⟨hu, ha, hc⟩
      · exact absurd hfail hi
      · simp [RunMethodRethrow, hstat, hi, hu, ha, hc, nullInstanceMsg]
  · intro allowInv isUnity mem invoke m inst
    by_cases he : (invoke inst).2 ≠ 0 <;>
      simp [RunMethodRethrow, he]

/-- C4 witness: at the concrete failing inputs — a null receiver, and a
non-null Unity receiver (address 1) whose shadow pointer is 0 — the
bridge with checks enabled throws the null-access error for method
Klass::Method without any reflective call, and with checks disabled it
performs the reflective call. -/
theorem runMethodRethrow_null_receiver_witness :
    ((RunMethodRethrow true false true true (fun _ => 0) (fun _ => (0, 0))
        ⟨false, "Klass", "Method"⟩ 1).result
      = Except.error (RMError.nullAccess
          ("Instance was null for method call of " ++ "Klass" ++ "::" ++ "Method"))
      ∧ (RunMethodRethrow true false true true (fun _ => 0) (fun _ => (0, 0))
        ⟨false, "Klass", "Method"⟩ 1).calls = [])
    ∧ (RunMethodRethrow false false true true (fun _ => 0) (fun _ => (0, 0))
        ⟨false, "Klass", "Method"⟩ 1).calls
      = [RMCall.runtimeInvoke "Method" 1] :=
  ⟨runMethodRethrow_null_receiver.1 false true (fun _ => 0) (fun _ => (0, 0))
      ⟨false, "Klass", "Method"⟩ 1 rfl (Or.inr ⟨rfl, rfl, rfl⟩),
    runMethodRethrow_null_receiver.2 false true (fun _ => 0) (fun _ => (0, 0))
      ⟨false, "Klass", "Method"⟩ 1⟩

/-- C5: whenever the foreign reflective call raises an exception (the
out-parameter is non-null), RunMethodRethrow throws to its caller the
exception payload wrapped together with the identity of the invoked
method, and produces no return value (the reflective call itself is the
only foreign call in the trace). -/
theorem runMethodRethrow_wraps_foreign_exception
    (nullChecks allowInv isRef isUnity : Bool) (mem : Nat → Nat)
    (invoke : Nat → Nat × Nat) (m : MethodInfo) (inst ret e : Nat)
    (hinst : inst ≠ 0) (hmem : read_cachedptr mem inst ≠ 0)
    (hcall : invoke inst = (ret, e)) (he : e ≠ 0) :
    (RunMethodRethrow nullChecks allowInv isRef isUnity mem invoke m inst).result
        = Except.error (RMError.invocationException e m)
    ∧ (RunMethodRethrow nullChecks allowInv isRef isUnity mem invoke m inst).calls
        = [RMCall.runtimeInvoke m.methodName inst] := by
  simp [RunMethodRethrow, hinst, hmem, hcall, he]

/-- C5 witness: a live receiver (address 1, shadow pointer 3) whose
reflective call raises exception payload 7 yields the invocation
exception wrapping 7 and the method identity, after exactly one
reflective call. -/
theorem runMethodRethrow_wraps_foreign_exception_witness :
    (RunMethodRethrow true false true true (fun _ => 3) (fun _ => (0, 7))
        ⟨false, "Klass", "Method"⟩ 1).result
      = Except.error (RMError.invocationException 7 ⟨false, "Klass", "Method"⟩)
    ∧ (RunMethodRethrow true false true true (fun _ => 3) (fun _ => (0, 7))
        ⟨false, "Klass", "Method"⟩ 1).calls
      = [RMCall.runtimeInvoke "Method" 1] :=
  runMethodRethrow_wraps_foreign_exception true false true true (fun _ => 3)
    (fun _ => (0, 7)) ⟨false, "Klass", "Method"⟩ 1 0 7
    (by decide) (by decide) rfl (by decide)

/-- C8: for a value-classified type of reported size `valueSize` and any
byte sequence of exactly that size, unboxing the handle produced by
boxing it yields the byte-for-byte identical value, for every foreign
runtime whose value_box / object_unbox pair preserves the boxed payload
bytes. -/
theorem box_unbox_roundtrip {H : Type} (rt : BoxRT H)
    (hrt : ∀ k bs, rt.object_unbox (rt.value_box k bs) = bs)
    (valueSize classofT : Nat) (t : CordlValue)
    (hsz : t.__instance.length = valueSize) :
    Unbox rt valueSize (Box rt classofT t) = t := by
  cases t with
  | mk bytes =>
    simp only [Unbox, Box, hrt]
    simp only at hsz
    rw [← hsz, List.take_length]

/-- C8 witness: with a payload-preserving runtime whose handles are the
payload byte lists themselves, the 4-byte value [222, 173, 190, 239]
boxed against class handle 11 unboxes to itself. -/
theorem box_unbox_roundtrip_witness :
    Unbox { value_box := fun _ bs => bs, object_unbox := fun h => h } 4
        (Box { value_box := fun _ bs => bs, object_unbox := fun h => h } 11
          ⟨[222, 173, 190, 239]⟩)
      = ⟨[222, 173, 190, 239]⟩ :=
  box_unbox_roundtrip
    { value_box := fun _ bs => bs, object_unbox := fun h => h }
    (fun _ _ => rfl) 4 11 ⟨[222, 173, 190, 239]⟩ rfl

/-- C10: when marshaling a raw object-pointer argument or receiver, a
non-null pointer whose class the foreign runtime reports as a value type
is extracted as the pointer to the unboxed payload, in both the
ExtractValue (Il2CppObject*) and ExtractTypeValue (Il2CppWrapperType)
specializations; a null object pointer is passed through as null
unchanged by both. -/
theorem extractValue_unboxes_boxed_value_types :
    (∀ (rt : ClassRT) (arg : Nat),
      arg ≠ 0 →
      rt.object_get_class arg ≠ 0 →
      rt.class_is_valuetype (rt.object_get_class arg) = true →
      (ExtractValue_obj rt arg = rt.object_unbox arg
        ∧ ExtractTypeValue_wrapper rt arg = rt.object_unbox arg))
    ∧ (∀ rt : ClassRT,
      ExtractValue_obj rt 0 = 0 ∧ ExtractTypeValue_wrapper rt 0 = 0) := by
  constructor
  · intro rt arg ha hk hv
    constructor <;> simp [ExtractValue_obj, ExtractTypeValue_wrapper, ha, hk, hv]
  · intro rt
    constructor <;> rfl

end CordlInternals
